import Mathlib

/-!
Verification development for the CYD-Hurricane-Tracker firmware
(`src/main/http_client.c`, `src/main/xml_parse.c`, `src/main/main.c`).

The embedding is shallow: each C function that the specification talks
about is translated into an executable Lean function over explicit state.

Conventions used throughout:
* raw memory bytes are `Nat` values (only sizes and a few header fields
  matter to the properties, never arithmetic overflow on byte values);
* a `char*` that may be `NULL` becomes an `Option`;
* `esp_err_t` becomes the two-valued `EspErr` (`ok` = `ESP_OK`, every
  failing branch returns `ESP_FAIL` in the modelled code paths);
* a download buffer is modelled by the list of bytes written so far
  (`buffer`), the byte count `buffer_size` and the allocation size
  `buffer_allocated`.  A write past the allocation shows up as
  `buffer_size > buffer_allocated`;
* `malloc` is assumed to succeed (allocation failure aborts the
  operation in the source and is outside the claims considered here);
* mutex acquisition is assumed to succeed (handler executions are
  modelled as serialized, which is what the lock is for).
-/

set_option maxRecDepth 16384

namespace HurricaneTracker

/-- `ESP_OK` / `ESP_FAIL` result of the modelled ESP-IDF functions. -/
inductive EspErr where
  | ok
  | fail
deriving Repr, DecidableEq

/-- Constant `MAX_IMAGES` from `app_config.h`. -/
def MAX_IMAGES : Nat := 10

/-- `MIN_VALID_IMAGE_SIZE` from `app_config.h` (the `buffer_size < 100`
check in `http_download_image`). -/
def MIN_VALID_IMAGE_SIZE : Nat := 100

/-- Slack added to every Content-Length hinted allocation
(`malloc(content_length + 1024)` in both HTTP event handlers). -/
def ALLOC_SLACK : Nat := 1024

/-- ASCII lower-casing of one character, as `strcasecmp` does. -/
def lowerChar (c : Char) : Char :=
  if 'A' ≤ c ∧ c ≤ 'Z' then Char.ofNat (c.toNat + 32) else c

/-- Case-insensitive string equality (`strcasecmp(a, b) == 0`). -/
def strcaseEq (a b : String) : Bool :=
  a.toList.map lowerChar == b.toList.map lowerChar

/-- The events delivered by `esp_http_client` to an event handler.
`onHeader` carries the header key and the `atoi` of its value
(the handlers only ever use the value through `atoi`); `onData`
carries the chunk bytes. -/
inductive HttpEvent where
  | onHeader (key : String) (valueAtoi : Nat)
  | onData (data : List Nat)
  | error
  | connected
  | headerSent
  | finish
  | disconnected
  | redirect
deriving Repr, DecidableEq

/-- `http_download_t` from `http_client.h`: `buffer` is `none` when the
C pointer is `NULL`, otherwise the bytes written so far. -/
structure HttpDownload where
  buffer : Option (List Nat)
  buffer_size : Nat
  buffer_allocated : Nat
deriving Repr, DecidableEq

/-- `memset(result, 0, sizeof(http_download_t))` at the start of
`http_download_xml_feed`. -/
def emptyDownload : HttpDownload :=
  { buffer := none, buffer_size := 0, buffer_allocated := 0 }

/-- `generic_http_event_handler` from `http_client.c` (feed download
path).  On a `Content-Length` header with positive value and no buffer
yet, allocates `content_length + 1024` bytes.  On a data event, appends
the chunk only when `buffer_size + data_len < buffer_allocated`;
otherwise the chunk is dropped whole.  (The null-terminator store at
`buffer[buffer_size]` is guarded by `buffer_allocated > buffer_size`
and does not change `buffer_size`; it is not represented.) -/
def generic_http_event_handler (evt : HttpEvent) (d : HttpDownload) :
    HttpDownload :=
  match evt with
  | .onHeader key value =>
      if strcaseEq key "Content-Length" then
        if value > 0 ∧ d.buffer = none then
          { buffer := some [],
            buffer_size := 0,
            buffer_allocated := value + ALLOC_SLACK }
        else d
      else d
  | .onData data =>
      match d.buffer with
      | some buf =>
          if data.length > 0 then
            if d.buffer_size + data.length < d.buffer_allocated then
              { d with
                buffer := some (buf ++ data),
                buffer_size := d.buffer_size + data.length }
            else d
          else d
      | none => d
  | _ => d

/-- Folding the feed-path handler over the event sequence of one HTTP
exchange, starting from the zeroed result structure. -/
def generic_download_run (events : List HttpEvent) : HttpDownload :=
  events.foldl (fun d e => generic_http_event_handler e d) emptyDownload

/-- Success check at the end of `http_download_xml_feed`: the feed
download succeeds exactly when the transport succeeded, the status is
200, the buffer exists and it is non-empty. -/
def http_download_xml_feed (transport : EspErr) (status : Nat)
    (d : HttpDownload) : EspErr :=
  if transport = .ok ∧ status = 200 ∧ d.buffer.isSome = true ∧
      0 < d.buffer_size then .ok
  else .fail

/-- LVGL color formats used by `process_downloaded_image` in `main.c`. -/
inductive ColorFormat where
  | rgb565
  | rgb888
  | argb8888
  | xrgb8888
  | rgb565a8
  | argb8565
  | l8
deriving Repr, DecidableEq

/-- The subset of `lv_img_dsc_t` filled in by `process_downloaded_image`:
header width/height/color-format, the payload pointer (kept as the
offset from the start of the download buffer) and `data_size`. -/
structure ImgDsc where
  w : Nat
  h : Nat
  cf : ColorFormat
  data_offset : Nat
  data_size : Nat
deriving Repr, DecidableEq

/-- `image_data_t` from `main.c`: one slot of `s_images`. -/
structure ImageData where
  buffer : Option (List Nat)
  buffer_size : Nat
  buffer_allocated : Nat
  img_dsc : ImgDsc
  is_valid : Bool
  download_timestamp : Nat
deriving Repr, DecidableEq

/-- `reset_image_buffer` from `main.c`: frees the buffer, zeroes the
sizes, clears validity and the timestamp.  (`img_dsc` is not cleared
by the source function.) -/
def reset_image_buffer (s : ImageData) : ImageData :=
  { s with
    buffer := none,
    buffer_size := 0,
    buffer_allocated := 0,
    is_valid := false,
    download_timestamp := 0 }

/-- `image_http_event_handler` from `http_client.c` (per-image download
path), acting on the slot state it reaches through
`get_image_buffer_info` / `set_image_buffer_info` (the slot index is
assumed in range, as checked at the top of the source function).
Returns the new slot state together with the handler's `esp_err_t`.

On a `Content-Length` header it allocates `content_length + 1024`
bytes when no buffer exists yet, else fails.  On a data event it
copies the chunk at offset `buffer_size` WITHOUT any capacity check
(`memcpy(buffer + buffer_size, evt->data, evt->data_len)`). -/
def image_http_event_handler (evt : HttpEvent) (s : ImageData) :
    ImageData × EspErr :=
  match evt with
  | .onHeader key value =>
      if strcaseEq key "Content-Length" then
        if value > 0 ∧ s.buffer = none then
          ({ s with
             buffer := some [],
             buffer_size := 0,
             buffer_allocated := value + ALLOC_SLACK,
             is_valid := false }, .ok)
        else (s, .fail)
      else (s, .ok)
  | .onData data =>
      if data.length > 0 then
        match s.buffer with
        | some buf =>
            ({ s with
               buffer := some (buf ++ data),
               buffer_size := s.buffer_size + data.length,
               is_valid := false }, .ok)
        | none => (s, .ok)
      else (s, .ok)
  | _ => (s, .ok)

/-- Folding the per-image handler over the events of one exchange
(the client delivers every event; the handler's return value is not
used to steer the transfer). -/
def image_events_run (s : ImageData) (events : List HttpEvent) :
    ImageData :=
  events.foldl (fun s e => (image_http_event_handler e s).1) s

/-- A fresh slot as initialized in `app_main`. -/
def freshSlot : ImageData :=
  { buffer := none, buffer_size := 0, buffer_allocated := 0,
    img_dsc := { w := 0, h := 0, cf := .rgb565,
                 data_offset := 0, data_size := 0 },
    is_valid := false, download_timestamp := 0 }

/-- Post-transfer logic of `http_download_image` from `http_client.c`:
reset the slot, let the per-image event handler accumulate the
response, then: transport failure fails; non-200 status fails; a
missing or empty buffer fails; a body smaller than 100 bytes fails
(without touching the slot); otherwise the slot is marked valid. -/
def http_download_image (prior : ImageData) (events : List HttpEvent)
    (transport : EspErr) (status : Nat) : EspErr × ImageData :=
  let s := image_events_run (reset_image_buffer prior) events
  if transport = .ok then
    if status ≠ 200 then (.fail, s)
    else
      match s.buffer with
      | some _ =>
          if 0 < s.buffer_size then
            if s.buffer_size < MIN_VALID_IMAGE_SIZE then (.fail, s)
            else (.ok, { s with is_valid := true })
          else (.fail, s)
      | none => (.fail, s)
  else (.fail, s)

/-- Byte at offset `i` of a downloaded buffer (reads past the held
bytes yield 0; the modelled code only reads inside). -/
def byteAt (buf : List Nat) (i : Nat) : Nat := buf.getD i 0

/-- Little-endian 16-bit read `*(uint16_t*)(buffer + i)`. -/
def readU16 (buf : List Nat) (i : Nat) : Nat :=
  byteAt buf i + 256 * byteAt buf (i + 1)

/-- Map of the wire color-format code to the LVGL color format, from
the first `switch (color_format)` in `process_downloaded_image`;
unknown codes default to RGB565. -/
def mapColorFormat (code : Nat) : ColorFormat :=
  if code = 0x12 then .rgb565
  else if code = 0x0F then .rgb888
  else if code = 0x10 then .argb8888
  else if code = 0x14 then .rgb565a8
  else if code = 0x13 then .argb8565
  else if code = 0x11 then .xrgb8888
  else if code = 0x06 then .l8
  else .rgb565

/-- Bytes per pixel of each LVGL color format, from the second
`switch` in `process_downloaded_image`. -/
def bytesPerPixel : ColorFormat → Nat
  | .rgb565 => 2
  | .rgb888 => 3
  | .argb8888 => 4
  | .xrgb8888 => 4
  | .rgb565a8 => 3
  | .argb8565 => 3
  | .l8 => 1

/-- Failure cause of `process_downloaded_image`, one per failing
branch of the source function (all of them return `ESP_FAIL`):
`noData` is the `buffer == NULL || buffer_size == 0` branch, the two
size checks (`< 8`, `< 12`) both log "too small" and map to
`tooSmall`, and the remaining two are the dimension and payload-size
checks. -/
inductive DecodeErr where
  | noData
  | tooSmall
  | invalidDimensions
  | truncatedPayload
deriving Repr, DecidableEq

/-- Outcome of `process_downloaded_image`: `ok` is `ESP_OK`, `error`
is `ESP_FAIL` tagged with the failing branch. -/
inductive DecodeResult where
  | ok
  | error (e : DecodeErr)
deriving Repr, DecidableEq

/-- `process_downloaded_image` from `main.c` on one slot.  Mirrors the
source control flow: data presence check, the two too-small checks,
header parse (magic at byte 0 — checked only for a warning, so it does
not influence the result —, color format at byte 1, width at bytes
4-5, height at bytes 6-7, little-endian), width/height stored into the
descriptor before the dimension check, color-format mapping, payload
offset 12, expected size `w*h*bytesPerPixel`, truncation check, then
validity.  The decode timestamp is wall-clock time from the external
clock; the model leaves the field unchanged. -/
def process_downloaded_image (img : ImageData) :
    DecodeResult × ImageData :=
  match img.buffer with
  | none => (.error .noData, img)
  | some buf =>
      if 0 < img.buffer_size then
        if img.buffer_size < 8 then (.error .tooSmall, img)
        else if img.buffer_size < 12 then (.error .tooSmall, img)
        else
          let color_format := byteAt buf 1
          let width := readU16 buf 4
          let height := readU16 buf 6
          let img1 :=
            { img with img_dsc :=
              { img.img_dsc with w := width, h := height } }
          if width > 4096 ∨ height > 4096 ∨ width = 0 ∨ height = 0 then
            (.error .invalidDimensions, { img1 with is_valid := false })
          else
            let cf := mapColorFormat color_format
            let img2 :=
              { img1 with img_dsc :=
                { img1.img_dsc with cf := cf, data_offset := 12 } }
            let bytes_per_pixel := bytesPerPixel cf
            let expected_size := width * height * bytes_per_pixel
            if img2.buffer_size < expected_size + 12 then
              (.error .truncatedPayload, { img2 with is_valid := false })
            else
              (.ok,
               { img2 with
                 img_dsc := { img2.img_dsc with data_size := expected_size },
                 is_valid := true })
      else (.error .noData, img)

/-- A slot holding a fully downloaded buffer (as produced by a
completed download whose size equals the bytes held). -/
def downloadedSlot (buf : List Nat) : ImageData :=
  { freshSlot with
    buffer := some buf,
    buffer_size := buf.length,
    buffer_allocated := buf.length }

/-- What `get_next_valid_image` returns: a pointer to some slot's
descriptor, or the statically bundled `error_image`. -/
inductive DisplayedImage where
  | slot (i : Nat)
  | errorImage
deriving Repr, DecidableEq

/-- `images_to_check` from `get_next_valid_image`: the active count,
or the full slot count when no images are active. -/
def images_to_check (active_image_count : Nat) : Nat :=
  if active_image_count > 0 then active_image_count else MAX_IMAGES

/-- The scan loop of `get_next_valid_image`: starting at `cursor`,
check the slot's validity flag; on success return that slot, else
advance to `(cursor + 1) % n` and repeat, for at most `fuel`
iterations (`attempts < images_to_check` in the source).  The second
component counts the validity checks performed. -/
def gnvi_scan (valid : List Bool) (n : Nat) :
    Nat → Nat → DisplayedImage × Nat
  | _, 0 => (.errorImage, 0)
  | cursor, fuel + 1 =>
      if valid.getD cursor false = true then (.slot cursor, 1)
      else
        let r := gnvi_scan valid n ((cursor + 1) % n) fuel
        (r.1, r.2 + 1)

/-- `get_next_valid_image` from `main.c`: scan at most
`images_to_check` slots from the current cursor, wrapping modulo
`images_to_check`; return the first valid slot's image, else the
bundled error image.  `valid` lists the `is_valid` flags of
`s_images`, `cursor` is `s_current_image_index` on entry. -/
def get_next_valid_image (valid : List Bool)
    (active_image_count cursor : Nat) : DisplayedImage × Nat :=
  gnvi_scan valid (images_to_check active_image_count) cursor
    (images_to_check active_image_count)

/-- Backlight state of `main.c`: the `backlight_on` flag, the GPIO
output level it drives, and whether the one-shot backlight timer is
armed. -/
structure BacklightState where
  backlight_on : Bool
  gpio_on : Bool
  timer_armed : Bool
deriving Repr, DecidableEq

/-- `get_backlight_state` (mutex acquisition modelled as succeeding). -/
def get_backlight_state (s : BacklightState) : Bool := s.backlight_on

/-- `set_backlight_state`: drive the GPIO and record the flag. -/
def set_backlight_state (state : Bool) (s : BacklightState) :
    BacklightState :=
  { s with gpio_on := state, backlight_on := state }

/-- The compile-time condition `ENABLE_TOUCHSCREEN ||
ENABLE_PIR_BACKLIGHT_TIMER` guarding the turn-off branch of the
backlight timer callback. -/
def has_activity_input (enable_touchscreen enable_pir : Bool) : Bool :=
  enable_touchscreen || enable_pir

/-- `backlight_timer_callback` from `main.c`, modelled at the moment
the one-shot timer fires (so it is no longer armed): when the
backlight is on, a build with an activity input turns it off, while a
build without one resets the timer (`xTimerReset`) and leaves the
backlight on; when the backlight is already off, nothing happens. -/
def backlight_timer_callback (input_present : Bool)
    (s : BacklightState) : BacklightState :=
  let s0 := { s with timer_armed := false }
  if get_backlight_state s0 = true then
    if input_present = true then set_backlight_state false s0
    else { s0 with timer_armed := true }
  else s0

/-! SAX feed parser (`xml_parse.c`).  The expat library is the external
event source: it turns the document bytes into a stream of element
and character-data events, delivered in document order until either
the end of input or the first structural error.  The repository code
consists of the three handlers and the driver functions; they are
embedded below over that event stream, with a `parseOk` flag standing
for the boolean result of `XML_Parse` (false = structural error, in
which case `events` are the events delivered before the error). -/

/-- One SAX event delivered by expat to the registered handlers
(attributes are ignored by `start_elem`, so they are not carried). -/
inductive SaxEvent where
  | startElem (name : String)
  | endElem (name : String)
  | charData (s : String)
deriving Repr, DecidableEq

/-- Parser context `ctx_t` from `xml_parse.c`.  `title` is the
`char[256]` accumulator (at most 255 characters plus the NUL),
`description` is the dynamically grown accumulator (`none` = `NULL`),
`found_url` is the single-URL result, `all_urls` the multi-URL
collection (`none` = `NULL`; `url_count` is its length). -/
structure ParseCtx where
  in_item : Bool
  in_title : Bool
  in_description : Bool
  title : List Char
  description : Option (List Char)
  found_url : Option (List Char)
  all_urls : Option (List (List Char))
deriving Repr, DecidableEq

/-- Test whether `pat` occurs at the head of `hay` (helper for the
`strstr` model). -/
def startsWithChars : List Char → List Char → Bool
  | _, [] => true
  | [], _ :: _ => false
  | a :: as, b :: bs => a == b && startsWithChars as bs

/-- Index of the first occurrence of `pat` in `hay` (`strstr`,
returned as an offset instead of a pointer; `none` = `NULL`). -/
def strstrIdx (hay pat : List Char) : Option Nat :=
  match hay with
  | [] => if startsWithChars [] pat then some 0 else none
  | _ :: rest =>
      if startsWithChars hay pat then some 0
      else (strstrIdx rest pat).map (· + 1)

/-- The quoted value starting at offset `start`: the characters up to
the next `"` (`strchr(p, '"')`); `none` when no closing quote exists,
in which case the source extracts nothing. -/
def extractQuoted (desc : List Char) (start : Nat) : Option (List Char) :=
  let p := desc.drop start
  match p.findIdx? (· == '\"') with
  | some qi => some (p.take qi)
  | none => none

/-- Handler `start_elem`: on `<item>` reset the title and the
description accumulator (allocating the description buffer if
needed); on `<title>`/`<description>` inside an item set the
corresponding flag. -/
def start_elem (el : String) (c : ParseCtx) : ParseCtx :=
  if el = "item" then
    { c with in_item := true, title := [], description := some [] }
  else if c.in_item = true ∧ el = "title" then
    { c with in_title := true }
  else if c.in_item = true ∧ el = "description" then
    { c with in_description := true }
  else c

/-- Handler `end_elem`: on `</item>`, if the title contains
"Graphics", search the description for `src="`; the first quoted
value after it is recorded in `found_url` (if not already set) and
appended to `all_urls` (if collecting).  When no `src="` exists, the
source searches for `href="` and only prints the value: the context
is unchanged.  The search runs over the description accumulated so
far (the source reads `c->description`, allocated at item start). -/
def end_elem (el : String) (c : ParseCtx) : ParseCtx :=
  if el = "item" then
    let c1 :=
      if (strstrIdx c.title "Graphics".toList).isSome = true then
        let desc := c.description.getD []
        match strstrIdx desc "src=\"".toList with
        | some i =>
            match extractQuoted desc (i + 5) with
            | some url =>
                let c2 :=
                  if c.found_url = none then { c with found_url := some url }
                  else c
                if c2.all_urls.isSome = true then
                  { c2 with all_urls := c2.all_urls.map (fun us => us ++ [url]) }
                else c2
            | none => c
        | none => c
      else c
    { c1 with in_item := false }
  else if el = "title" then { c with in_title := false }
  else if el = "description" then { c with in_description := false }
  else c

/-- Handler `char_data`: inside a title, append up to the remaining
capacity of the 256-byte title array (excess truncated); inside a
description (when its buffer exists), append without bound (the
geometric reallocation always succeeds in the model). -/
def char_data (s : String) (c : ParseCtx) : ParseCtx :=
  if c.in_title = true then
    let current_len := c.title.length
    let available := 256 - current_len - 1
    if available > 0 then
      let copy_len := min s.toList.length available
      { c with title := c.title ++ s.toList.take copy_len }
    else c
  else if c.in_description = true ∧ c.description.isSome = true then
    { c with description := c.description.map (fun d => d ++ s.toList) }
  else c

/-- Dispatch one SAX event to the registered handler. -/
def processEvent (c : ParseCtx) (e : SaxEvent) : ParseCtx :=
  match e with
  | .startElem name => start_elem name c
  | .endElem name => end_elem name c
  | .charData s => char_data s c

/-- Run the handlers over a delivered event sequence. -/
def runEvents (c : ParseCtx) (es : List SaxEvent) : ParseCtx :=
  es.foldl processEvent c

/-- Initial context of `xml_parse_all_cone_image_urls`: zeroed except
that the URL array is allocated (capacity 4, count 0). -/
def initMultiCtx : ParseCtx :=
  { in_item := false, in_title := false, in_description := false,
    title := [], description := none, found_url := none,
    all_urls := some [] }

/-- Driver `xml_parse_all_cone_image_urls`: run the handlers over the
delivered events; when `XML_Parse` reports a structural error
(`parseOk = false`), free every collected URL, set `*count = 0` and
return `NULL`; on success return `NULL` when nothing was collected,
else the collected array and its count. -/
def xml_parse_all_cone_image_urls (events : List SaxEvent)
    (parseOk : Bool) : Option (List (List Char)) × Nat :=
  let ctx := runEvents initMultiCtx events
  if parseOk = false then (none, 0)
  else
    let urls := ctx.all_urls.getD []
    if urls.length = 0 then (none, 0)
    else (some urls, urls.length)

/-- Event sequence of a feed whose two items both have titles
containing "Graphics" and descriptions embedding `src="..."` URLs;
used to exhibit the discarded-partial-result behavior of claim C2. -/
def claim2_events : List SaxEvent :=
  [.startElem "item",
   .startElem "title", .charData "Storm One Graphics", .endElem "title",
   .startElem "description",
   .charData "<img src=\"http://a/1.png\" />",
   .endElem "description",
   .endElem "item",
   .startElem "item",
   .startElem "title", .charData "Storm Two Graphics", .endElem "title",
   .startElem "description",
   .charData "<img src=\"http://a/2.png\" />",
   .endElem "description",
   .endElem "item"]

/-- Feed of claim C8: two "Graphics" entries with `src` URLs plus an
"Advisory" entry with no `src`. -/
def claim8_feed : List SaxEvent :=
  claim2_events ++
  [.startElem "item",
   .startElem "title", .charData "Storm Three Advisory", .endElem "title",
   .startElem "description",
   .charData "no image reference here",
   .endElem "description",
   .endElem "item"]

/-- Feed with one qualifying ("Graphics") entry whose description
carries only an `href="..."` value and no `src`. -/
def claim8_href_feed : List SaxEvent :=
  [.startElem "item",
   .startElem "title", .charData "Storm Four Graphics", .endElem "title",
   .startElem "description",
   .charData "<a href=\"http://a/3.html\">cone page</a>",
   .endElem "description",
   .endElem "item"]

/-- Distance (in forward steps modulo `n`) from `cursor` to `k`,
written without `%` so that linear arithmetic applies directly. -/
def wrapDist (k cursor n : Nat) : Nat :=
  if cursor ≤ k then k - cursor else k + n - cursor

/-! Helper lemmas. -/

/-- Every color format needs at least one byte per pixel. -/
theorem bytesPerPixel_pos (cf : ColorFormat) : 0 < bytesPerPixel cf := by
  cases cf <;> decide

/-- The per-image event handler never sets the validity flag: a slot
that is invalid stays invalid across any event. -/
theorem image_handler_keeps_invalid (e : HttpEvent) (s : ImageData)
    (h : s.is_valid = false) :
    (image_http_event_handler e s).1.is_valid = false := by
  cases e with
  | onHeader key v =>
      simp only [image_http_event_handler]
      split_ifs <;> simp [h]
  | onData data =>
      simp only [image_http_event_handler]
      split_ifs with hlen
      · cases hb : s.buffer <;> simp [hb, h]
      · exact h
  | error => exact h
  | connected => exact h
  | headerSent => exact h
  | finish => exact h
  | disconnected => exact h
  | redirect => exact h

/-- Running the per-image handler over any event sequence keeps an
invalid slot invalid. -/
theorem image_run_keeps_invalid (events : List HttpEvent) :
    ∀ s : ImageData, s.is_valid = false →
      (image_events_run s events).is_valid = false := by
  induction events with
  | nil => intro s h; exact h
  | cons e es ih =>
      intro s h
      simp only [image_events_run, List.foldl_cons]
      exact ih _ (image_handler_keeps_invalid e s h)

/-- The per-image event handler keeps the invariant that a missing
buffer has size zero. -/
theorem image_handler_none_size (e : HttpEvent) (s : ImageData)
    (h : s.buffer = none → s.buffer_size = 0) :
    (image_http_event_handler e s).1.buffer = none →
      (image_http_event_handler e s).1.buffer_size = 0 := by
  cases e with
  | onHeader key v =>
      simp only [image_http_event_handler]
      split_ifs <;> simp_all
  | onData data =>
      simp only [image_http_event_handler]
      split_ifs with hlen
      · cases hb : s.buffer <;> simp_all
      · exact h
  | error => exact h
  | connected => exact h
  | headerSent => exact h
  | finish => exact h
  | disconnected => exact h
  | redirect => exact h

/-- Over any event sequence, a run that ends with no buffer ends with
size zero. -/
theorem image_run_none_size (events : List HttpEvent) :
    ∀ s : ImageData, (s.buffer = none → s.buffer_size = 0) →
      (image_events_run s events).buffer = none →
        (image_events_run s events).buffer_size = 0 := by
  induction events with
  | nil => intro s h; exact h
  | cons e es ih =>
      intro s h
      simp only [image_events_run, List.foldl_cons]
      exact ih _ (image_handler_none_size e s h)

/-- Scanning an all-invalid slot set consumes the whole fuel and
reports the error image, from any cursor. -/
theorem gnvi_scan_all_invalid (valid : List Bool) (n : Nat)
    (hinv : ∀ j, valid.getD j false = false) :
    ∀ fuel cursor, gnvi_scan valid n cursor fuel = (.errorImage, fuel) := by
  intro fuel
  induction fuel with
  | zero => intro c; rfl
  | succ f ih =>
      intro c
      simp only [gnvi_scan]
      rw [hinv c]
      simp [ih]

/-- When exactly one slot `k < n` is valid, the scan starting inside
the range reaches it whenever the fuel exceeds the wrap distance. -/
theorem gnvi_scan_finds (valid : List Bool) (n k : Nat)
    (hk : k < n) (hvk : valid.getD k false = true)
    (hother : ∀ j, j ≠ k → valid.getD j false = false) :
    ∀ fuel cursor, cursor < n → wrapDist k cursor n < fuel →
      (gnvi_scan valid n cursor fuel).1 = .slot k := by
  intro fuel
  induction fuel with
  | zero => intro c hc hd; omega
  | succ f ih =>
      intro c hc hd
      by_cases hck : c = k
      · subst hck
        simp only [gnvi_scan]
        rw [hvk]
        simp
      · have hvc : valid.getD c false = false := hother c hck
        simp only [gnvi_scan]
        rw [hvc]
        simp only [Bool.false_eq_true, if_false]
        have e : (c + 1) % n = if c + 1 = n then 0 else c + 1 := by
          rcases Nat.lt_or_ge (c + 1) n with h | h
          · rw [if_neg (by omega), Nat.mod_eq_of_lt h]
          · have hcn : c + 1 = n := by omega
            rw [if_pos hcn, hcn, Nat.mod_self]
        rw [e]
        split_ifs with hc1
        · apply ih 0 (by omega)
          unfold wrapDist at hd ⊢
          split_ifs at hd ⊢ <;> omega
        · apply ih (c + 1) (by omega)
          unfold wrapDist at hd ⊢
          split_ifs at hd ⊢ <;> omega

/-! Claim theorems. -/

/-- Claim C1: the per-image download path violates the capacity bound.
With a `Content-Length` of 100 the allocation is 1124 bytes, yet a
single 1200-byte data event is copied whole by
`image_http_event_handler` (no capacity check before the `memcpy`),
leaving `buffer_size = 1200 > 1124 = buffer_allocated`: the write
lands outside the allocation, contradicting the claim that every
oversized data event is dropped on both download paths. -/
theorem claim1_image_path_overflow :
    (image_events_run (reset_image_buffer freshSlot)
      [.onHeader "Content-Length" 100,
       .onData (List.replicate 1200 7)]).buffer_size = 1200 ∧
    (image_events_run (reset_image_buffer freshSlot)
      [.onHeader "Content-Length" 100,
       .onData (List.replicate 1200 7)]).buffer_allocated = 1124 ∧
    (image_events_run (reset_image_buffer freshSlot)
      [.onHeader "Content-Length" 100,
       .onData (List.replicate 1200 7)]).buffer_size >
    (image_events_run (reset_image_buffer freshSlot)
      [.onHeader "Content-Length" 100,
       .onData (List.replicate 1200 7)]).buffer_allocated := by
  refine ⟨?_, ?_, ?_⟩ <;> decide

/-- Claim C2 (counterexample): a document whose first two entries parse
completely (both URLs are collected by the handlers) but whose parse
then hits a structural error yields `(NULL, 0)` from
`xml_parse_all_cone_image_urls` — the collected URLs are freed and
discarded, not returned as a partial result as the claim states. -/
theorem claim2_counterexample :
    xml_parse_all_cone_image_urls claim2_events false = (none, 0) ∧
    (runEvents initMultiCtx claim2_events).all_urls =
      some ["http://a/1.png".toList, "http://a/2.png".toList] := by
  exact ⟨by decide, by decide⟩

/-- Claim C2 (amended): whenever `XML_Parse` reports a structural
error, `xml_parse_all_cone_image_urls` frees everything collected
from the entries parsed before the error and returns `NULL` with
`*count = 0` — a total failure, never a partial result, no matter
which events were delivered first. -/
theorem claim2_theorem (events : List SaxEvent) :
    xml_parse_all_cone_image_urls events false = (none, 0) := by
  simp [xml_parse_all_cone_image_urls]

/-- Claim C3 (counterexample): with a declared Content-Length of 100
and three 40-byte chunks, the feed-path accumulator does NOT stop at
100 bytes: the allocation is `100 + 1024 = 1124` bytes, all three
chunks fit, and the final `buffer_size` is 120, not 100. -/
theorem claim3_counterexample :
    (generic_download_run
      [.onHeader "Content-Length" 100,
       .onData (List.replicate 40 1),
       .onData (List.replicate 40 2),
       .onData (List.replicate 40 3)]).buffer_size = 120 ∧
    ¬ (generic_download_run
      [.onHeader "Content-Length" 100,
       .onData (List.replicate 40 1),
       .onData (List.replicate 40 2),
       .onData (List.replicate 40 3)]).buffer_size = 100 := by
  exact ⟨by decide, by decide⟩

/-- Claim C3 (amended): with a declared Content-Length of 100 the
capacity ceiling is `100 + 1024 = 1124` bytes, so body chunks of
40+40+40 bytes are all retained: the buffer holds exactly the 120
body bytes in order and nothing is discarded.  (A chunk is dropped
whole only when `buffer_size + chunkLen` would reach the 1124-byte
allocation.) -/
theorem claim3_amended :
    generic_download_run
      [.onHeader "Content-Length" 100,
       .onData (List.replicate 40 1),
       .onData (List.replicate 40 2),
       .onData (List.replicate 40 3)] =
    { buffer := some (List.replicate 40 1 ++ List.replicate 40 2 ++
                      List.replicate 40 3),
      buffer_size := 120,
      buffer_allocated := 1124 } := by
  decide

/-- Claim C4: every buffer of exactly `w*h*bytesPerPixel + 12` bytes
whose header declares width and height in (0, 4096] decodes
successfully whatever the magic byte and the color-format code are:
the returned descriptor reproduces the header width and height, the
payload starts at offset 12 with `data_size = w*h*bytesPerPixel`, and
the slot is marked valid.  The bytes-per-pixel table and the
unknown-code default are also as the claim fixes them. -/
theorem claim4_theorem (buf : List Nat)
    (hw1 : 0 < readU16 buf 4) (hw2 : readU16 buf 4 ≤ 4096)
    (hh1 : 0 < readU16 buf 6) (hh2 : readU16 buf 6 ≤ 4096)
    (hsize : buf.length =
      readU16 buf 4 * readU16 buf 6 *
        bytesPerPixel (mapColorFormat (byteAt buf 1)) + 12) :
    (process_downloaded_image (downloadedSlot buf)).1 = .ok ∧
    (process_downloaded_image (downloadedSlot buf)).2.is_valid = true ∧
    (process_downloaded_image (downloadedSlot buf)).2.img_dsc.w =
      readU16 buf 4 ∧
    (process_downloaded_image (downloadedSlot buf)).2.img_dsc.h =
      readU16 buf 6 ∧
    (process_downloaded_image (downloadedSlot buf)).2.img_dsc.data_offset
      = 12 ∧
    (process_downloaded_image (downloadedSlot buf)).2.img_dsc.data_size =
      readU16 buf 4 * readU16 buf 6 *
        bytesPerPixel (mapColorFormat (byteAt buf 1)) ∧
    bytesPerPixel .rgb565 = 2 ∧ bytesPerPixel .rgb888 = 3 ∧
    bytesPerPixel .argb8888 = 4 ∧ bytesPerPixel .xrgb8888 = 4 ∧
    bytesPerPixel .rgb565a8 = 3 ∧ bytesPerPixel .argb8565 = 3 ∧
    bytesPerPixel .l8 = 1 ∧
    (∀ code, code ∉ ([0x12, 0x0F, 0x10, 0x14, 0x13, 0x11, 0x06] :
        List Nat) → mapColorFormat code = .rgb565) := by
  have hbpp : 0 < bytesPerPixel (mapColorFormat (byteAt buf 1)) :=
    bytesPerPixel_pos _
  have hwh : 0 < readU16 buf 4 * readU16 buf 6 *
      bytesPerPixel (mapColorFormat (byteAt buf 1)) :=
    Nat.mul_pos (Nat.mul_pos hw1 hh1) hbpp
  have hmain : process_downloaded_image (downloadedSlot buf) =
      (.ok,
       { buffer := some buf, buffer_size := buf.length,
         buffer_allocated := buf.length,
         img_dsc :=
           { w := readU16 buf 4, h := readU16 buf 6,
             cf := mapColorFormat (byteAt buf 1), data_offset := 12,
             data_size := readU16 buf 4 * readU16 buf 6 *
               bytesPerPixel (mapColorFormat (byteAt buf 1)) },
         is_valid := true, download_timestamp := 0 }) := by
    simp only [process_downloaded_image, downloadedSlot, freshSlot]
    rw [if_pos (by omega), if_neg (by omega), if_neg (by omega),
        if_neg (by omega), if_neg (by omega)]
  rw [hmain]
  refine ⟨rfl, rfl, rfl, rfl, rfl, rfl, rfl, rfl, rfl, rfl, rfl, rfl,
    rfl, ?_⟩
  intro code hcode
  simp only [List.mem_cons, List.not_mem_nil, or_false, not_or] at hcode
  unfold mapColorFormat
  rw [if_neg hcode.1, if_neg hcode.2.1, if_neg hcode.2.2.1,
      if_neg hcode.2.2.2.1, if_neg hcode.2.2.2.2.1,
      if_neg hcode.2.2.2.2.2.1, if_neg hcode.2.2.2.2.2.2]

/-- Claim C4 (witness): a 13-byte buffer with a wrong magic byte
(0x00 instead of 0x19), color format 0x06 (L8, one byte per pixel)
and a 1x1 size decodes successfully. -/
theorem claim4_witness :
    (0 < readU16 [0, 6, 0, 0, 1, 0, 1, 0, 1, 0, 0, 0, 171] 4 ∧
     readU16 [0, 6, 0, 0, 1, 0, 1, 0, 1, 0, 0, 0, 171] 4 ≤ 4096 ∧
     0 < readU16 [0, 6, 0, 0, 1, 0, 1, 0, 1, 0, 0, 0, 171] 6 ∧
     readU16 [0, 6, 0, 0, 1, 0, 1, 0, 1, 0, 0, 0, 171] 6 ≤ 4096 ∧
     ([0, 6, 0, 0, 1, 0, 1, 0, 1, 0, 0, 0, 171] : List Nat).length =
       readU16 [0, 6, 0, 0, 1, 0, 1, 0, 1, 0, 0, 0, 171] 4 *
         readU16 [0, 6, 0, 0, 1, 0, 1, 0, 1, 0, 0, 0, 171] 6 *
         bytesPerPixel (mapColorFormat
           (byteAt [0, 6, 0, 0, 1, 0, 1, 0, 1, 0, 0, 0, 171] 1)) + 12) ∧
    (process_downloaded_image
      (downloadedSlot [0, 6, 0, 0, 1, 0, 1, 0, 1, 0, 0, 0, 171])).1 =
      .ok ∧
    (process_downloaded_image
      (downloadedSlot [0, 6, 0, 0, 1, 0, 1, 0, 1, 0, 0, 0, 171])).2.is_valid
      = true := by
  refine ⟨⟨by decide, by decide, by decide, by decide, by decide⟩, ?_, ?_⟩
  · exact (claim4_theorem [0, 6, 0, 0, 1, 0, 1, 0, 1, 0, 0, 0, 171]
      (by decide) (by decide) (by decide) (by decide) (by decide)).1
  · exact (claim4_theorem [0, 6, 0, 0, 1, 0, 1, 0, 1, 0, 0, 0, 171]
      (by decide) (by decide) (by decide) (by decide) (by decide)).2.1

/-- Claim C5 (counterexample): on a present but empty buffer
(`buffer_size = 0 < 12`) the decoder fails through the
"No image data available" branch, not the too-small branch, so the
claim's "fails with the too-small error" does not hold for every
buffer of size < 12. -/
theorem claim5_counterexample :
    (process_downloaded_image { freshSlot with buffer := some [] }).1 =
      .error .noData ∧
    ¬ (process_downloaded_image { freshSlot with buffer := some [] }).1 =
      .error .tooSmall := by
  exact ⟨by decide, by decide⟩

/-- Claim C5 (amended): on every buffer with `size < 12` the decoder
fails without reading a single byte and without touching the slot
(in particular the slot is not marked valid) — with the too-small
error when `0 < size`, and with the no-data error when `size = 0`.
The quantification over arbitrary buffer contents expresses that no
byte is read: the result depends only on the size. -/
theorem claim5_theorem (img0 : ImageData) (buf : List Nat)
    (hb : img0.buffer = some buf) (hlt : img0.buffer_size < 12) :
    process_downloaded_image img0 =
      (.error (if img0.buffer_size = 0 then DecodeErr.noData
               else DecodeErr.tooSmall), img0) := by
  simp only [process_downloaded_image, hb]
  rcases Nat.eq_zero_or_pos img0.buffer_size with h0 | hpos
  · rw [h0]
    simp
  · conv_rhs => rw [if_neg (show ¬ img0.buffer_size = 0 by omega)]
    rw [if_pos hpos]
    by_cases h8 : img0.buffer_size < 8
    · rw [if_pos h8]
    · rw [if_neg h8, if_pos (by omega)]

/-- Claim C5 (witness): a 3-byte buffer fails with the too-small
error and the slot is untouched. -/
theorem claim5_witness :
    ({ freshSlot with buffer := some [1, 2, 3], buffer_size := 3 } :
      ImageData).buffer = some [1, 2, 3] ∧
    ({ freshSlot with buffer := some [1, 2, 3], buffer_size := 3 } :
      ImageData).buffer_size < 12 ∧
    process_downloaded_image
      { freshSlot with buffer := some [1, 2, 3], buffer_size := 3 } =
      (.error .tooSmall,
       { freshSlot with buffer := some [1, 2, 3], buffer_size := 3 }) := by
  refine ⟨rfl, by decide, ?_⟩
  exact claim5_theorem
    { freshSlot with buffer := some [1, 2, 3], buffer_size := 3 }
    [1, 2, 3] rfl (by decide)

/-- Claim C6 (counterexample): slots with exactly one valid entry at
index 2, an active count of 3 and a starting cursor of 5 (possible
when the active count shrank since the cursor was last set): the scan
probes indices 5, 0, 1 and exhausts its three attempts without ever
reaching index 2, returning the error image instead of slot 2. -/
theorem claim6_counterexample :
    (get_next_valid_image
      [false, false, true, false, false, false, false, false, false,
       false] 3 5).1 = DisplayedImage.errorImage ∧
    ¬ (get_next_valid_image
      [false, false, true, false, false, false, false, false, false,
       false] 3 5).1 = DisplayedImage.slot 2 := by
  exact ⟨by decide, by decide⟩

/-- Claim C6 (amended): when exactly one slot, at index `k`, is valid,
`get_next_valid_image` returns slot `k`'s image for every starting
cursor INSIDE the scanned range — both `cursor` and `k` below
`images_to_check` (the active count, or the full slot count when the
active count is 0). -/
theorem claim6_theorem (valid : List Bool) (active cursor k : Nat)
    (hc : cursor < images_to_check active)
    (hk : k < images_to_check active)
    (hvk : valid.getD k false = true)
    (hother : ∀ j, j < valid.length → j ≠ k →
      valid.getD j false = false) :
    (get_next_valid_image valid active cursor).1 = .slot k := by
  have hother' : ∀ j, j ≠ k → valid.getD j false = false := by
    intro j hj
    by_cases hl : j < valid.length
    · exact hother j hl hj
    · exact List.getD_eq_default _ _ (by omega)
  have hd : wrapDist k cursor (images_to_check active) <
      images_to_check active := by
    unfold wrapDist
    split_ifs <;> omega
  unfold get_next_valid_image
  exact gnvi_scan_finds valid _ k hk hvk hother' _ cursor hc hd

/-- Claim C6 (witness): with only slot 1 valid among three active
slots and the cursor at 0, the scan returns slot 1. -/
theorem claim6_witness :
    0 < images_to_check 3 ∧ 1 < images_to_check 3 ∧
    (get_next_valid_image [false, true, false] 3 0).1 =
      DisplayedImage.slot 1 := by
  refine ⟨by decide, by decide, ?_⟩
  exact claim6_theorem [false, true, false] 3 0 1 (by decide) (by decide)
    (by decide) (by decide)

/-- Claim C7: when no slot is valid, `get_next_valid_image` inspects
exactly `images_to_check` slots (the active count, or the full slot
count when the active count is 0), terminates, and returns the
bundled error image, from every starting cursor. -/
theorem claim7_theorem (valid : List Bool) (active cursor : Nat)
    (hinv : ∀ j, j < valid.length → valid.getD j false = false) :
    get_next_valid_image valid active cursor =
      (.errorImage, images_to_check active) := by
  have hinv' : ∀ j, valid.getD j false = false := by
    intro j
    by_cases hl : j < valid.length
    · exact hinv j hl
    · exact List.getD_eq_default _ _ (by omega)
  unfold get_next_valid_image
  exact gnvi_scan_all_invalid valid _ hinv' _ cursor

/-- Claim C7 (witness): ten all-invalid slots with an active count of
3: the scan performs exactly 3 checks and yields the error image. -/
theorem claim7_witness :
    get_next_valid_image (List.replicate 10 false) 3 0 =
      (DisplayedImage.errorImage, 3) := by
  have h := claim7_theorem (List.replicate 10 false) 3 0 (by decide)
  exact h.trans (by decide)

/-- Claim C8: on a feed with two entries whose titles contain
"Graphics" and whose descriptions embed `src="http://a/1.png"` and
`src="http://a/2.png"`, plus one "Advisory" entry with no `src`, the
multi-URL extraction yields exactly those two URLs in document order
(one per qualifying entry); and a qualifying entry whose description
carries only an `href="..."` value contributes nothing — extraction
over such a feed returns no URLs at all. -/
theorem claim8_theorem :
    xml_parse_all_cone_image_urls claim8_feed true =
      (some ["http://a/1.png".toList, "http://a/2.png".toList], 2) ∧
    xml_parse_all_cone_image_urls claim8_href_feed true = (none, 0) := by
  exact ⟨by decide, by decide⟩

/-- Claim C9: at backlight-timer expiry, a build with an activity
input (touchscreen or motion sensor) that finds the backlight on
turns it off; a build with neither input never changes the backlight
state at expiry — when the light is on it rearms the timer instead —
so expiry can never reach the backlight-off state there. -/
theorem claim9_theorem (touch pir : Bool) (s : BacklightState) :
    (has_activity_input touch pir = true → s.backlight_on = true →
      (backlight_timer_callback (has_activity_input touch pir) s
        ).backlight_on = false) ∧
    (has_activity_input touch pir = false →
      (backlight_timer_callback (has_activity_input touch pir) s
        ).backlight_on = s.backlight_on ∧
      (s.backlight_on = true →
        (backlight_timer_callback (has_activity_input touch pir) s
          ).timer_armed = true)) := by
  obtain ⟨b, g, t⟩ := s
  cases touch <;> cases pir <;> cases b <;> cases g <;> cases t <;>
    decide

/-- Claim C9 (witness): with a touchscreen build the expiry turns an
on backlight off; with no input the expiry keeps it on and rearms. -/
theorem claim9_witness :
    (backlight_timer_callback (has_activity_input true false)
      ⟨true, true, false⟩).backlight_on = false ∧
    (backlight_timer_callback (has_activity_input false false)
      ⟨true, true, false⟩).backlight_on = true ∧
    (backlight_timer_callback (has_activity_input false false)
      ⟨true, true, false⟩).timer_armed = true := by
  refine ⟨(claim9_theorem true false ⟨true, true, false⟩).1 rfl rfl,
    ?_, ?_⟩
  · exact ((claim9_theorem false false ⟨true, true, false⟩).2 rfl).1
  · exact ((claim9_theorem false false ⟨true, true, false⟩).2 rfl).2 rfl

/-- Claim C10: a per-image download whose exchange ends with transport
success, status 200 and a non-empty body smaller than 100 bytes
returns failure and leaves the slot not valid; and the generic feed
contract is indeed weaker: it accepts any non-empty body, in
particular one of the same sub-100 size. -/
theorem claim10_theorem (prior : ImageData) (events : List HttpEvent)
    (status : Nat) (hstatus : status = 200)
    (hpos : 0 < (image_events_run (reset_image_buffer prior)
      events).buffer_size)
    (hlt : (image_events_run (reset_image_buffer prior)
      events).buffer_size < 100) :
    (http_download_image prior events .ok status).1 = .fail ∧
    (http_download_image prior events .ok status).2.is_valid = false ∧
    (∀ d : HttpDownload, d.buffer.isSome = true → 0 < d.buffer_size →
      http_download_xml_feed .ok 200 d = .ok) := by
  have hval : (image_events_run (reset_image_buffer prior)
      events).is_valid = false :=
    image_run_keeps_invalid events _ rfl
  obtain ⟨buf, hbuf⟩ : ∃ b,
      (image_events_run (reset_image_buffer prior) events).buffer =
        some b := by
    cases hb : (image_events_run (reset_image_buffer prior)
        events).buffer with
    | none =>
        have := image_run_none_size events (reset_image_buffer prior)
          (fun _ => rfl) hb
        omega
    | some b => exact ⟨b, rfl⟩
  subst hstatus
  refine ⟨?_, ?_, ?_⟩
  · simp only [http_download_image, hbuf]
    rw [if_pos trivial, if_neg (by omega), if_pos hpos,
        if_pos (show _ < MIN_VALID_IMAGE_SIZE by
          unfold MIN_VALID_IMAGE_SIZE
          omega)]
  · simp only [http_download_image, hbuf]
    rw [if_pos trivial, if_neg (by omega), if_pos hpos,
        if_pos (show _ < MIN_VALID_IMAGE_SIZE by
          unfold MIN_VALID_IMAGE_SIZE
          omega)]
    exact hval
  · intro d h1 h2
    simp [http_download_xml_feed, h1, h2]

/-- Claim C10 (witness): a 50-byte body over status 200 fails the
image download and leaves the slot invalid, while the same size
passes the generic feed check. -/
theorem claim10_witness :
    0 < (image_events_run (reset_image_buffer freshSlot)
      [.onHeader "Content-Length" 50,
       .onData (List.replicate 50 9)]).buffer_size ∧
    (image_events_run (reset_image_buffer freshSlot)
      [.onHeader "Content-Length" 50,
       .onData (List.replicate 50 9)]).buffer_size < 100 ∧
    (http_download_image freshSlot
      [.onHeader "Content-Length" 50,
       .onData (List.replicate 50 9)] .ok 200).1 = .fail ∧
    (http_download_image freshSlot
      [.onHeader "Content-Length" 50,
       .onData (List.replicate 50 9)] .ok 200).2.is_valid = false := by
  refine ⟨by decide, by decide, ?_, ?_⟩
  · exact (claim10_theorem freshSlot
      [.onHeader "Content-Length" 50, .onData (List.replicate 50 9)]
      200 rfl (by decide) (by decide)).1
  · exact (claim10_theorem freshSlot
      [.onHeader "Content-Length" 50, .onData (List.replicate 50 9)]
      200 rfl (by decide) (by decide)).2.1

end HurricaneTracker